import Mathlib

/-!
Shallow embedding of the audience rule compiler and the campaign dispatch /
delivery-tracking engine of the mini-CRM backend (routes for segments and
campaigns, plus the mongoose data model).

The rule compiler follows the function buildSegmentQuery in the campaigns and
segments route files.  The dispatcher follows the campaign-creation route
handler, and the receipt reconciler follows the delivery-receipt route handler.
Mongo query documents are embedded as a small AST (Query / Condition /
Constraint) whose semantics over a customer record is the matching relation
that MongoDB applies to the queries this code actually emits.
-/

namespace Crm

/-- A rule value: JS numbers are modelled as rationals (exact comparisons),
strings as strings, arrays as lists. -/
inductive Value where
  | num (q : ℚ)
  | str (s : String)
  | arr (vs : List Value)

/-- A segment rule as validated by the segments route: a field name, an
operator, a value and an optional logical operator (absent when the JSON field
is missing). -/
structure Rule where
  field : String
  operator : String
  value : Value
  logicalOperator : Option String

/-- Customer record (the fields the rule language can reach).  totalSpent and
visitCount are JS numbers (rationals); lastVisit is an optional millisecond
timestamp; location.city is flattened to city. -/
structure Customer where
  id : String
  name : String
  totalSpent : ℚ
  visitCount : ℚ
  lastVisit : Option Int
  city : String

mutual

/-- Structural equality of values (MongoDB equality on the scalar values this
code emits). -/
def valueBeq : Value → Value → Bool
  | .num a, .num b => a == b
  | .str a, .str b => a == b
  | .arr as, .arr bs => valueListBeq as bs
  | _, _ => false

def valueListBeq : List Value → List Value → Bool
  | [], [] => true
  | a :: as, b :: bs => valueBeq a b && valueListBeq as bs
  | _, _ => false

end

/-- Mongo-style less-than on values: comparisons only relate values of the
same type bracket (number/number or string/string); mixed-type range
comparisons match nothing. -/
def vlt : Value → Value → Bool
  | .num a, .num b => decide (a < b)
  | .str a, .str b => decide (a < b)
  | _, _ => false

/-- Mongo-style less-or-equal on values, same type-bracket discipline. -/
def vle : Value → Value → Bool
  | .num a, .num b => decide (a ≤ b)
  | .str a, .str b => a == b || decide (a < b)
  | _, _ => false

/-- A single field constraint as emitted by buildSegmentQuery: the operator
documents such as \x7b $gt: v \x7d, plain equality, set membership, and the two
two-sided range forms the compiler produces. -/
inductive Constraint where
  | cgt (v : Value)
  | clt (v : Value)
  | cgte (v : Value)
  | clte (v : Value)
  | ceq (v : Value)
  | cne (v : Value)
  | cin (vs : List Value)
  | cnin (vs : List Value)
  | cbetween (lo hi : Value)
  | cgteLte (lo hi : Value)

/-- One per-rule condition document: either the empty document (a rule whose
operator/value fell through every case of the source switch) or a constraint
on one field. -/
inductive Condition where
  | trivial
  | field (f : String) (c : Constraint)

/-- The whole query document returned by buildSegmentQuery: the empty document
for an empty rule list, a single unwrapped condition, or an $and / $or of the
per-rule conditions. -/
inductive Query where
  | all
  | single (c : Condition)
  | and (cs : List Condition)
  | or (cs : List Condition)

/-- The tierRanges table of buildSegmentQuery: min and optional max of
totalSpent for each tier label (max is absent exactly for PREMIUM, whose max
is Infinity in the source and therefore not spread into the condition). -/
def tierRange (s : String) : Option (ℚ × Option ℚ) :=
  if s = "PREMIUM" then some (50001, none)
  else if s = "GOLD" then some (20001, some 50000)
  else if s = "SILVER" then some (5001, some 20000)
  else if s = "BRONZE" then some (0, some 5000)
  else none

/-- Numeric payload of a value.  The day-count arithmetic of the
daysSinceLastVisit branch is only exercised with numeric rule values (the Joi
rule schema and every claim use numbers there); non-numeric values default
to 0. -/
def valueToNum : Value → ℚ
  | .num q => q
  | _ => 0

/-- Coercion used by the in / not_in branches:
Array.isArray(value) ? value : [value]. -/
def coerceToArray : Value → List Value
  | .arr vs => vs
  | v => [v]

/-- Milliseconds in a day, as in the source (24 * 60 * 60 * 1000). -/
def dayMs : ℚ := 86400000

/-- The per-rule condition built by the loop body of buildSegmentQuery.
now is the millisecond timestamp of new Date() at compile time. -/
def ruleCondition (now : Int) (r : Rule) : Condition :=
  if r.field = "daysSinceLastVisit" then
    let daysAgo : ℚ := (now : ℚ) - valueToNum r.value * dayMs
    if r.operator = ">" then .field "lastVisit" (.clt (.num daysAgo))
    else if r.operator = "<" then .field "lastVisit" (.cgt (.num daysAgo))
    else if r.operator = ">=" then .field "lastVisit" (.clte (.num daysAgo))
    else if r.operator = "<=" then .field "lastVisit" (.cgte (.num daysAgo))
    else if r.operator = "=" then
      .field "lastVisit" (.cbetween (.num daysAgo) (.num (daysAgo + dayMs)))
    else .trivial
  else if r.field = "customerTier" then
    if r.operator = "=" then
      match r.value with
      | .str s =>
        match tierRange s with
        | some (lo, some hi) => .field "totalSpent" (.cgteLte (.num lo) (.num hi))
        | some (lo, none) => .field "totalSpent" (.cgte (.num lo))
        | none => .trivial
      | _ => .trivial
    else .trivial
  else
    if r.operator = ">" then .field r.field (.cgt r.value)
    else if r.operator = "<" then .field r.field (.clt r.value)
    else if r.operator = ">=" then .field r.field (.cgte r.value)
    else if r.operator = "<=" then .field r.field (.clte r.value)
    else if r.operator = "=" then .field r.field (.ceq r.value)
    else if r.operator = "!=" then .field r.field (.cne r.value)
    else if r.operator = "in" then .field r.field (.cin (coerceToArray r.value))
    else if r.operator = "not_in" then .field r.field (.cnin (coerceToArray r.value))
    else .trivial

/-- buildSegmentQuery: empty rule list gives the empty query; a single
condition is returned unwrapped; otherwise all conditions are combined under
$or exactly when the first rule's logicalOperator is the string OR, else
under $and. -/
def buildSegmentQuery (now : Int) (rules : List Rule) : Query :=
  match rules with
  | [] => .all
  | [r] => .single (ruleCondition now r)
  | r :: rs =>
    let conditions := (r :: rs).map (ruleCondition now)
    if r.logicalOperator = some "OR" then .or conditions else .and conditions

/-- Field lookup on a customer document.  A customer with no lastVisit has no
value at that path (Mongo treats the field as missing). -/
def getField (c : Customer) (f : String) : Option Value :=
  if f = "totalSpent" then some (.num c.totalSpent)
  else if f = "visitCount" then some (.num c.visitCount)
  else if f = "lastVisit" then c.lastVisit.map (fun t => .num (t : ℚ))
  else if f = "location.city" then some (.str c.city)
  else if f = "name" then some (.str c.name)
  else none

/-- Mongo matching of one constraint against an optional field value.
Missing fields fail every positive comparison but satisfy $ne and $nin. -/
def matchesConstraint (fv : Option Value) : Constraint → Bool
  | .cgt v => match fv with | some x => vlt v x | none => false
  | .clt v => match fv with | some x => vlt x v | none => false
  | .cgte v => match fv with | some x => vle v x | none => false
  | .clte v => match fv with | some x => vle x v | none => false
  | .ceq v => match fv with | some x => valueBeq x v | none => false
  | .cne v => match fv with | some x => !valueBeq x v | none => true
  | .cin vs => match fv with | some x => vs.any (valueBeq x) | none => false
  | .cnin vs => match fv with | some x => !vs.any (valueBeq x) | none => true
  | .cbetween lo hi =>
      match fv with | some x => vle lo x && vlt x hi | none => false
  | .cgteLte lo hi =>
      match fv with | some x => vle lo x && vle x hi | none => false

/-- Matching of one condition document against a customer. -/
def matchesCondition (c : Customer) : Condition → Bool
  | .trivial => true
  | .field f k => matchesConstraint (getField c f) k

/-- Matching of a whole compiled query against a customer. -/
def matchesQuery (c : Customer) : Query → Bool
  | .all => true
  | .single k => matchesCondition c k
  | .and cs => cs.all (matchesCondition c)
  | .or cs => cs.any (matchesCondition c)

/-! ## Campaign dispatch and delivery tracking

Embedding of the campaign-creation route handler (create campaign, create one
PENDING CommunicationLog per matched customer, send through the vendor,
record SENT/FAILED and bump the stats, then mark the campaign COMPLETED) and
of the delivery-receipt route handler.  The vendor's random outcome and the
per-task clock readings are supplied by an environment; the JS event loop
serializes the in-memory stats increments, so the settled state is the fold
over the per-customer outcomes. -/

/-- Campaign stats counters (all start at 0). -/
structure Stats where
  sent : Nat
  failed : Nat
  delivered : Nat
  opened : Nat
  clicked : Nat
  deriving DecidableEq

/-- A campaign document. -/
structure Campaign where
  id : Nat
  name : String
  message : String
  audienceSize : Nat
  status : String
  stats : Stats
  deriving DecidableEq

/-- A CommunicationLog document. -/
structure CommLog where
  campaignId : Nat
  customerId : String
  message : String
  status : String
  vendorMessageId : String
  sentAt : Option Int
  deliveredAt : Option Int
  failureReason : Option String
  deriving DecidableEq

/-- Outcome of one vendor send call: resolved success, resolved failure, or a
rejected/throwing call (caught by the per-task catch block). -/
inductive SendOutcome where
  | success
  | failure
  | vendorThrow
  deriving DecidableEq

/-- Per-task environment: the vendor outcome and the Date.now() reading the
task observes. -/
structure SendEnv where
  outcome : SendOutcome
  now : Int
  deriving DecidableEq

/-- Whether a send outcome resolved successfully. -/
def isSuccess : SendOutcome → Bool
  | .success => true
  | _ => false

/-- The vendorMessageId template of the dispatcher:
msg_(campaign id)_(customer id)_(Date.now()). -/
def mkVendorMessageId (campId : Nat) (custId : String) (now : Int) : String :=
  "msg_" ++ toString campId ++ "_" ++ custId ++ "_" ++ toString now

/-- Replace every occurrence of tok by rep, scanning left to right without
rescanning the replacement, exactly as a global regex replace does.  fuel
bounds the recursion and is instantiated with the input's length. -/
def replaceTok (tok rep : List Char) : Nat → List Char → List Char
  | _, [] => []
  | 0, s => s
  | fuel + 1, c :: cs =>
    if tok.isPrefixOf (c :: cs) then
      rep ++ replaceTok tok rep fuel ((c :: cs).drop tok.length)
    else
      c :: replaceTok tok rep fuel cs

/-- message.replace of the name token by the customer name
(the JS template token is the customer-name placeholder in braces). -/
def personalize (template name : String) : String :=
  ⟨replaceTok "{name}".data name.data template.data.length template.data⟩

/-- The PENDING CommunicationLog created for one customer before the send. -/
def mkPendingLog (campId : Nat) (template : String) (c : Customer)
    (e : SendEnv) : CommLog :=
  { campaignId := campId
    customerId := c.id
    message := personalize template c.name
    status := "PENDING"
    vendorMessageId := mkVendorMessageId campId c.id e.now
    sentAt := none
    deliveredAt := none
    failureReason := none }

/-- The per-task update after the send settles: success sets SENT and sentAt;
a resolved failure sets FAILED with the vendor's error; a throwing call is
caught and sets FAILED with the catch-block reason. -/
def applyOutcome (log : CommLog) (e : SendEnv) : CommLog :=
  match e.outcome with
  | .success => { log with status := "SENT", sentAt := some e.now }
  | .failure => { log with status := "FAILED", failureReason := some "Delivery failed" }
  | .vendorThrow => { log with status := "FAILED", failureReason := some "Vendor API error" }

/-- One whole dispatch task for one customer: create the PENDING log, send,
record the outcome. -/
def sendTask (campId : Nat) (template : String) (c : Customer)
    (e : SendEnv) : CommLog :=
  applyOutcome (mkPendingLog campId template c e) e

/-- One stats update: campaign.stats.sent++ on success, else
campaign.stats.failed++ (both the resolved-failure and the catch branch). -/
def statsStep : Nat × Nat → SendOutcome → Nat × Nat
  | (s, f), .success => (s + 1, f)
  | (s, f), _ => (s, f + 1)

/-- The settled (sent, failed) counters after every send task ran. -/
def outcomeStats (os : List SendOutcome) : Nat × Nat :=
  os.foldl statsStep (0, 0)

/-- Result of a campaign launch: the settled campaign document and its
communication logs. -/
structure LaunchResult where
  campaign : Campaign
  logs : List CommLog

/-- The settled state of a campaign launch over a non-empty audience: one log
per customer via sendTask, stats folded from the outcomes, audienceSize frozen
at the audience length, and status COMPLETED once every send attempt settled. -/
def dispatch (campId : Nat) (name template : String)
    (customers : List Customer) (env : Customer → SendEnv) : LaunchResult :=
  let logs := customers.map fun c => sendTask campId template c (env c)
  let stats := outcomeStats (customers.map fun c => (env c).outcome)
  { campaign :=
      { id := campId
        name := name
        message := template
        audienceSize := customers.length
        status := "COMPLETED"
        stats := { sent := stats.1, failed := stats.2,
                   delivered := 0, opened := 0, clicked := 0 } }
    logs := logs }

/-- The campaign-creation route: an empty materialized audience is rejected
before any campaign or log is created; otherwise the launch runs to its
settled state. -/
def launch (campId : Nat) (name template : String)
    (customers : List Customer) (env : Customer → SendEnv) :
    Option LaunchResult :=
  if customers.isEmpty then none
  else some (dispatch campId name template customers env)

/-! ## Receipt reconciliation -/

/-- Result reported by the delivery-receipt route: 200, 404, or a 500 from a
rejected save (mongoose enum validation). -/
inductive IngestResult where
  | ok
  | notFound
  | saveError
  deriving DecidableEq

/-- The CommunicationLog status enum of the mongoose schema; commLog.save()
rejects any other value. -/
def logStatusValid (s : String) : Bool :=
  s = "PENDING" || s = "SENT" || s = "FAILED" || s = "DELIVERED" ||
    s = "OPENED" || s = "CLICKED"

/-- CommunicationLog.findOne by vendorMessageId. -/
def findLog : List CommLog → String → Option CommLog
  | [], _ => none
  | l :: ls, vmid =>
    if l.vendorMessageId = vmid then some l else findLog ls vmid

/-- Persist the updated log document (replace the record that was found). -/
def replaceLog : List CommLog → String → CommLog → List CommLog
  | [], _, _ => []
  | l :: ls, vmid, l' =>
    if l.vendorMessageId = vmid then l' :: ls else l :: replaceLog ls vmid l'

/-- Campaign.findById. -/
def findCampaign : List Campaign → Nat → Option Campaign
  | [], _ => none
  | c :: cs, i => if c.id = i then some c else findCampaign cs i

/-- Persist the updated campaign document. -/
def replaceCampaign : List Campaign → Nat → Campaign → List Campaign
  | [], _, _ => []
  | c :: cs, i, c' =>
    if c.id = i then c' :: cs else c :: replaceCampaign cs i c'

/-- The persistent state the two route handlers share. -/
structure DB where
  campaigns : List Campaign
  logs : List CommLog
  deriving DecidableEq

/-- The delivery-receipt route handler: look the log up by vendorMessageId
(404 if absent); set its status to the receipt's status and deliveredAt when
present, then save (rejected for a status outside the schema enum); finally,
if the owning campaign exists and the receipt status is DELIVERED, increment
that campaign's stats.delivered by one.  No guard consults the log's previous
status. -/
def ingestReceipt (db : DB) (vmid status : String) (deliveredAt : Option Int) :
    IngestResult × DB :=
  match findLog db.logs vmid with
  | none => (.notFound, db)
  | some log =>
    if logStatusValid status then
      let log' : CommLog :=
        { log with
          status := status
          deliveredAt := match deliveredAt with
            | some d => some d
            | none => log.deliveredAt }
      let db' : DB := { db with logs := replaceLog db.logs vmid log' }
      match findCampaign db'.campaigns log.campaignId with
      | none => (.ok, db')
      | some camp =>
        if status = "DELIVERED" then
          let camp' : Campaign :=
            { camp with stats := { camp.stats with delivered := camp.stats.delivered + 1 } }
          (.ok, { db' with campaigns := replaceCampaign db'.campaigns camp.id camp' })
        else (.ok, db')
    else (.saveError, db)

/-! ## Concrete inputs used by counterexamples, bug demonstrations and
witnesses -/

/-- A tier-equality rule for the given tier label. -/
def tierEqRule (s : String) : Rule :=
  { field := "customerTier", operator := "=", value := .str s,
    logicalOperator := some "AND" }

/-- The rule customerTier = GOLD. -/
def goldRule : Rule := tierEqRule "GOLD"

/-- A daysSinceLastVisit rule with the given operator and day count. -/
def daysRule (op : String) (d : ℚ) : Rule :=
  { field := "daysSinceLastVisit", operator := op, value := .num d,
    logicalOperator := none }

/-- A customerTier rule with a non-equality operator (falls through the tier
branch of the compiler). -/
def badTierRule : Rule :=
  { field := "customerTier", operator := ">", value := .str "GOLD",
    logicalOperator := none }

/-- Whether a rule value is a valid tier label of the tierRanges table. -/
def validTier : Value → Bool
  | .str s => (tierRange s).isSome
  | _ => false

/-- A customer whose totalSpent is a non-integer amount strictly between
20000 and 20001. -/
def fracCustomer : Customer :=
  { id := "cF", name := "Fern", totalSpent := 20000 + (1 : ℚ) / 2,
    visitCount := 1, lastVisit := none, city := "Pune" }

def custA : Customer :=
  { id := "cA", name := "Asha", totalSpent := 25000, visitCount := 3,
    lastVisit := some 1000, city := "Mumbai" }

def custB : Customer :=
  { id := "cB", name := "Ravi", totalSpent := 4000, visitCount := 1,
    lastVisit := some 2000, city := "Delhi" }

/-- Environment in which every vendor call succeeds at clock reading 100. -/
def envSuccess : Customer → SendEnv := fun _ => { outcome := .success, now := 100 }

/-- Environment in which custA's send succeeds and every other send fails. -/
def envMixed : Customer → SendEnv := fun c =>
  if c.id = "cA" then { outcome := .success, now := 100 }
  else { outcome := .failure, now := 200 }

/-- The database state after launching campaign 7 over the one-customer
audience [custA] with a successful send: one SENT log, stats.sent = 1,
stats.delivered = 0. -/
def launchedDb : DB :=
  let res := dispatch 7 "welcome" "Hi {name}" [custA] envSuccess
  { campaigns := [res.campaign], logs := res.logs }

/-- The database state after launching campaign 9 over [custA, custB] where
custA's send succeeded (log SENT) and custB's send failed (log FAILED). -/
def mixedDb : DB :=
  let res := dispatch 9 "promo" "Hey {name}" [custA, custB] envMixed
  { campaigns := [res.campaign], logs := res.logs }

/-- The vendorMessageId of custA's log in launchedDb. -/
def vmidA : String := mkVendorMessageId 7 "cA" 100

/-- The vendorMessageId of custA's (SENT) log in mixedDb. -/
def vmidA9 : String := mkVendorMessageId 9 "cA" 100

/-- The vendorMessageId of custB's (FAILED) log in mixedDb. -/
def vmidB9 : String := mkVendorMessageId 9 "cB" 200

/-- Hypothesis wrapper: every customer id in the audience is underscore-free
(Mongo ObjectId strings are hexadecimal, hence underscore-free). -/
abbrev underscoreFreeIds (customers : List Customer) : Prop :=
  ∀ c ∈ customers, '_' ∉ c.id.data

/-! ## Rule compiler theorems -/

/-- C4 counterexample: a customer with the fractional totalSpent 20000.5 lies
in the half-open interval (20000, 50000] but does not match the compiled
predicate of customerTier = GOLD, because the compiler emits the inclusive
lower bound 20001 ($gte 20001) rather than the strict bound > 20000. -/
theorem tier_gold_fractional_counterexample :
    matchesQuery fracCustomer (buildSegmentQuery 0 [goldRule]) = false ∧
    (20000 : ℚ) < fracCustomer.totalSpent ∧ fracCustomer.totalSpent ≤ 50000 := by
  refine ⟨?_, by norm_num [fracCustomer], by norm_num [fracCustomer]⟩
  have h : buildSegmentQuery 0 [goldRule]
      = .single (.field "totalSpent" (.cgteLte (.num 20001) (.num 50000))) := rfl
  rw [h]
  simp only [matchesQuery, matchesCondition, matchesConstraint, getField, vle]
  norm_num [fracCustomer]

/-- C4 amended: the compiled predicate of a customerTier equality rule holds
exactly when totalSpent lies in the inclusive range of the tierRanges table:
BRONZE [0, 5000], SILVER [5001, 20000], GOLD [20001, 50000],
PREMIUM [50001, ∞).  (These coincide with the claimed half-open ranges only
on integer totalSpent values.) -/
theorem tier_ranges_amended (now : Int) (c : Customer) :
    (matchesQuery c (buildSegmentQuery now [tierEqRule "BRONZE"]) = true ↔
      0 ≤ c.totalSpent ∧ c.totalSpent ≤ 5000) ∧
    (matchesQuery c (buildSegmentQuery now [tierEqRule "SILVER"]) = true ↔
      5001 ≤ c.totalSpent ∧ c.totalSpent ≤ 20000) ∧
    (matchesQuery c (buildSegmentQuery now [tierEqRule "GOLD"]) = true ↔
      20001 ≤ c.totalSpent ∧ c.totalSpent ≤ 50000) ∧
    (matchesQuery c (buildSegmentQuery now [tierEqRule "PREMIUM"]) = true ↔
      50001 ≤ c.totalSpent) := by
  have hb : buildSegmentQuery now [tierEqRule "BRONZE"]
      = .single (.field "totalSpent" (.cgteLte (.num 0) (.num 5000))) := rfl
  have hs : buildSegmentQuery now [tierEqRule "SILVER"]
      = .single (.field "totalSpent" (.cgteLte (.num 5001) (.num 20000))) := rfl
  have hg : buildSegmentQuery now [tierEqRule "GOLD"]
      = .single (.field "totalSpent" (.cgteLte (.num 20001) (.num 50000))) := rfl
  have hp : buildSegmentQuery now [tierEqRule "PREMIUM"]
      = .single (.field "totalSpent" (.cgte (.num 50001))) := rfl
  rw [hb, hs, hg, hp]
  simp [matchesQuery, matchesCondition, matchesConstraint, getField, vle]

/-- C5: the compiler returns the empty (match-all) query for an empty rule
list, the single unwrapped condition for a one-rule list, and for two or more
rules one combinator chosen by the first rule's logicalOperator ($or exactly
when it is OR, $and otherwise, including when it is absent); ruleCondition
never reads a rule's own logicalOperator, so operators after the first are
ignored. -/
theorem compile_combination_policy (now : Int) (r1 r2 : Rule) (rs : List Rule)
    (o : Option String) (c : Customer) :
    buildSegmentQuery now [] = Query.all ∧
    matchesQuery c (buildSegmentQuery now []) = true ∧
    buildSegmentQuery now [r1] = Query.single (ruleCondition now r1) ∧
    buildSegmentQuery now (r1 :: r2 :: rs) =
      (if r1.logicalOperator = some "OR"
        then Query.or ((r1 :: r2 :: rs).map (ruleCondition now))
        else Query.and ((r1 :: r2 :: rs).map (ruleCondition now))) ∧
    ruleCondition now { r2 with logicalOperator := o } = ruleCondition now r2 := by
  exact ⟨rfl, rfl, rfl, rfl, rfl⟩

/-- C6: for a customer whose lastVisit is present, a daysSinceLastVisit rule
compiles to a lastVisit comparison against the cutoff now − value·day with
the comparison direction inverted, and operator = matches exactly the 24-hour
window starting at the cutoff; in particular daysSinceLastVisit > 30 holds
exactly when lastVisit is strictly earlier than now − 30 days. -/
theorem days_since_last_visit_inverted (now : Int) (d : ℚ) (t : Int)
    (c : Customer) (h : c.lastVisit = some t) :
    (matchesQuery c (buildSegmentQuery now [daysRule ">" 30]) = true ↔
      (t : ℚ) < (now : ℚ) - 30 * dayMs) ∧
    (matchesQuery c (buildSegmentQuery now [daysRule ">" d]) = true ↔
      (t : ℚ) < (now : ℚ) - d * dayMs) ∧
    (matchesQuery c (buildSegmentQuery now [daysRule "<" d]) = true ↔
      (now : ℚ) - d * dayMs < (t : ℚ)) ∧
    (matchesQuery c (buildSegmentQuery now [daysRule ">=" d]) = true ↔
      (t : ℚ) ≤ (now : ℚ) - d * dayMs) ∧
    (matchesQuery c (buildSegmentQuery now [daysRule "<=" d]) = true ↔
      (now : ℚ) - d * dayMs ≤ (t : ℚ)) ∧
    (matchesQuery c (buildSegmentQuery now [daysRule "=" d]) = true ↔
      ((now : ℚ) - d * dayMs ≤ (t : ℚ) ∧
        (t : ℚ) < (now : ℚ) - d * dayMs + dayMs)) := by
  have hgt : ∀ q : ℚ, buildSegmentQuery now [daysRule ">" q]
      = .single (.field "lastVisit" (.clt (.num ((now : ℚ) - q * dayMs)))) :=
    fun q => rfl
  have hlt : buildSegmentQuery now [daysRule "<" d]
      = .single (.field "lastVisit" (.cgt (.num ((now : ℚ) - d * dayMs)))) := rfl
  have hge : buildSegmentQuery now [daysRule ">=" d]
      = .single (.field "lastVisit" (.clte (.num ((now : ℚ) - d * dayMs)))) := rfl
  have hle : buildSegmentQuery now [daysRule "<=" d]
      = .single (.field "lastVisit" (.cgte (.num ((now : ℚ) - d * dayMs)))) := rfl
  have heq : buildSegmentQuery now [daysRule "=" d]
      = .single (.field "lastVisit" (.cbetween (.num ((now : ℚ) - d * dayMs))
          (.num ((now : ℚ) - d * dayMs + dayMs)))) := rfl
  rw [hgt 30, hgt d, hlt, hge, hle, heq]
  simp [matchesQuery, matchesCondition, matchesConstraint, getField, h, vlt, vle]

/-- C10: a customerTier rule whose operator is not the equality operator, or
whose value is not one of the four tier labels, compiles to the empty
condition, and a segment consisting of that single rule therefore matches
every customer. -/
theorem invalid_tier_rule_matches_all (now : Int) (r : Rule)
    (hf : r.field = "customerTier")
    (h : r.operator ≠ "=" ∨ validTier r.value = false) :
    ruleCondition now r = Condition.trivial ∧
    ∀ c : Customer, matchesQuery c (buildSegmentQuery now [r]) = true := by
  have hcond : ruleCondition now r = Condition.trivial := by
    unfold ruleCondition
    rw [hf]
    simp only [reduceIte, String.reduceEq]
    rcases h with hop | hv
    · rw [if_neg hop]
    · by_cases hop : r.operator = "="
      · rw [if_pos hop]
        cases hval : r.value with
        | num q => rfl
        | arr vs => rfl
        | str s =>
          rw [hval] at hv
          cases htr : tierRange s with
          | none => simp [htr]
          | some p => simp [validTier, htr] at hv
      · rw [if_neg hop]
  refine ⟨hcond, fun c => ?_⟩
  have hq : buildSegmentQuery now [r] = .single (ruleCondition now r) := rfl
  rw [hq, hcond]
  rfl

/-! ## Dispatcher theorems -/

@[simp] theorem isSuccess_success : isSuccess .success = true := rfl

@[simp] theorem isSuccess_failure : isSuccess .failure = false := rfl

@[simp] theorem isSuccess_vendorThrow : isSuccess .vendorThrow = false := rfl

theorem foldl_statsStep_fst (os : List SendOutcome) : ∀ s f : Nat,
    (os.foldl statsStep (s, f)).1 = s + os.countP isSuccess := by
  induction os with
  | nil => intro s f; simp
  | cons o os ih =>
    intro s f
    cases o <;> (simp [statsStep, List.countP_cons, ih]; try omega)

theorem foldl_statsStep_snd (os : List SendOutcome) : ∀ s f : Nat,
    (os.foldl statsStep (s, f)).2 = f + os.countP (fun o => !isSuccess o) := by
  induction os with
  | nil => intro s f; simp
  | cons o os ih =>
    intro s f
    cases o <;> (simp [statsStep, List.countP_cons, ih]; try omega)

theorem countP_isSuccess_add_not (os : List SendOutcome) :
    os.countP isSuccess + os.countP (fun o => !isSuccess o) = os.length := by
  induction os with
  | nil => simp
  | cons o os ih =>
    cases o <;> (simp [List.countP_cons, List.length_cons]; try omega)

/-- C3: for every launch over a non-empty audience, once every send attempt
has settled the campaign's stats.sent counts exactly the successful outcomes
and stats.failed exactly the non-successful ones (a rejected or throwing
vendor call included), so stats.sent + stats.failed = N. -/
theorem stats_sent_failed_sum (campId : Nat) (name template : String)
    (c0 : Customer) (cs : List Customer) (env : Customer → SendEnv) :
    launch campId name template (c0 :: cs) env
      = some (dispatch campId name template (c0 :: cs) env) ∧
    (dispatch campId name template (c0 :: cs) env).campaign.stats.sent
      = (((c0 :: cs).map fun c => (env c).outcome).countP isSuccess) ∧
    (dispatch campId name template (c0 :: cs) env).campaign.stats.failed
      = (((c0 :: cs).map fun c => (env c).outcome).countP fun o => !isSuccess o) ∧
    (dispatch campId name template (c0 :: cs) env).campaign.stats.sent
        + (dispatch campId name template (c0 :: cs) env).campaign.stats.failed
      = (c0 :: cs).length := by
  have hs : (dispatch campId name template (c0 :: cs) env).campaign.stats.sent
      = (((c0 :: cs).map fun c => (env c).outcome).countP isSuccess) := by
    show (outcomeStats ((c0 :: cs).map fun c => (env c).outcome)).1 = _
    rw [outcomeStats, foldl_statsStep_fst]
    omega
  have hf : (dispatch campId name template (c0 :: cs) env).campaign.stats.failed
      = (((c0 :: cs).map fun c => (env c).outcome).countP fun o => !isSuccess o) := by
    show (outcomeStats ((c0 :: cs).map fun c => (env c).outcome)).2 = _
    rw [outcomeStats, foldl_statsStep_snd]
    omega
  refine ⟨rfl, hs, hf, ?_⟩
  rw [hs, hf, countP_isSuccess_add_not, List.length_map]

/-- C8: once all send attempts of a launch have settled, the campaign status
is COMPLETED for every outcome environment — in particular also when every
single send fails. -/
theorem campaign_completes_unconditionally (campId : Nat) (name template : String)
    (c0 : Customer) (cs : List Customer) (env : Customer → SendEnv) :
    launch campId name template (c0 :: cs) env
      = some (dispatch campId name template (c0 :: cs) env) ∧
    (dispatch campId name template (c0 :: cs) env).campaign.status = "COMPLETED" ∧
    (dispatch campId name template (c0 :: cs)
        (fun _ => { outcome := .failure, now := 0 })).campaign.status
      = "COMPLETED" := ⟨rfl, rfl, rfl⟩

theorem noUnderscore_append_inj : ∀ (a b ta tb : List Char),
    '_' ∉ a → '_' ∉ b → a ++ '_' :: ta = b ++ '_' :: tb → a = b := by
  intro a
  induction a with
  | nil =>
    intro b ta tb _ hb h
    cases b with
    | nil => rfl
    | cons y ys =>
      simp only [List.nil_append, List.cons_append] at h
      injection h with h1 _
      exact absurd (by rw [h1]; exact List.mem_cons_self y ys) hb
  | cons x xs ih =>
    intro b ta tb ha hb h
    cases b with
    | nil =>
      simp only [List.nil_append, List.cons_append] at h
      injection h with h1 _
      exact absurd (by rw [← h1]; exact List.mem_cons_self x xs) ha
    | cons y ys =>
      simp only [List.cons_append] at h
      injection h with h1 h2
      have hx : '_' ∉ xs := fun hm => ha (List.mem_cons_of_mem _ hm)
      have hy : '_' ∉ ys := fun hm => hb (List.mem_cons_of_mem _ hm)
      rw [h1, ih ys ta tb hx hy h2]

/-- Within one campaign, two vendorMessageIds built from distinct
underscore-free customer ids differ, whatever the two clock readings were.
(Mongo ObjectId strings are hexadecimal, hence underscore-free.) -/
theorem mkVendorMessageId_inj (campId : Nat) (a b : String) (ta tb : Int)
    (ha : '_' ∉ a.data) (hb : '_' ∉ b.data)
    (h : mkVendorMessageId campId a ta = mkVendorMessageId campId b tb) :
    a = b := by
  have hd := congrArg String.data h
  simp only [mkVendorMessageId, String.data_append, List.append_assoc,
    List.singleton_append] at hd
  have h1 := List.append_cancel_left hd
  have h2 := List.append_cancel_left h1
  injection h2 with _ h3
  exact String.ext (noUnderscore_append_inj a.data b.data _ _ ha hb h3)

theorem sendTask_vendorMessageId (campId : Nat) (template : String)
    (c : Customer) (e : SendEnv) :
    (sendTask campId template c e).vendorMessageId
      = mkVendorMessageId campId c.id e.now := by
  cases e with
  | mk o n => cases o <;> rfl

theorem sendTask_customerId (campId : Nat) (template : String)
    (c : Customer) (e : SendEnv) :
    (sendTask campId template c e).customerId = c.id := by
  cases e with
  | mk o n => cases o <;> rfl

/-- C7: a launch over a non-empty audience of customers with pairwise
distinct, underscore-free ids creates exactly one CommunicationLog per
customer — each one the send-outcome update of a log created with status
PENDING — and the vendorMessageIds of the created logs are pairwise distinct,
so each vendorMessageId identifies exactly one log. -/
theorem launch_logs_distinct (campId : Nat) (name template : String)
    (c0 : Customer) (cs : List Customer) (env : Customer → SendEnv)
    (hnd : ((c0 :: cs).map Customer.id).Nodup)
    (hus : underscoreFreeIds (c0 :: cs)) :
    launch campId name template (c0 :: cs) env
      = some (dispatch campId name template (c0 :: cs) env) ∧
    (dispatch campId name template (c0 :: cs) env).logs.length
      = (c0 :: cs).length ∧
    (dispatch campId name template (c0 :: cs) env).logs.map CommLog.customerId
      = (c0 :: cs).map Customer.id ∧
    (dispatch campId name template (c0 :: cs) env).logs
      = (c0 :: cs).map (fun c => applyOutcome (mkPendingLog campId template c (env c)) (env c)) ∧
    ((c0 :: cs).map fun c => (mkPendingLog campId template c (env c)).status)
      = (c0 :: cs).map (fun _ => "PENDING") ∧
    ((dispatch campId name template (c0 :: cs) env).logs.map
        CommLog.vendorMessageId).Nodup := by
  refine ⟨rfl, by simp [dispatch], ?_, rfl, ?_, ?_⟩
  · show ((c0 :: cs).map fun c => sendTask campId template c (env c)).map CommLog.customerId
        = (c0 :: cs).map Customer.id
    rw [List.map_map]
    exact List.map_congr_left fun c _ => sendTask_customerId campId template c (env c)
  · exact List.map_congr_left fun c _ => rfl
  · show (((c0 :: cs).map fun c => sendTask campId template c (env c)).map
        CommLog.vendorMessageId).Nodup
    rw [List.map_map]
    have hinj := List.inj_on_of_nodup_map hnd
    refine List.Nodup.map_on ?_ (hnd.of_map Customer.id)
    intro x hx y hy hxy
    have hids : x.id = y.id := by
      by_contra hne
      have hxid := hus x hx
      have hyid := hus y hy
      have : x.id = y.id := by
        apply mkVendorMessageId_inj campId x.id y.id (env x).now (env y).now hxid hyid
        rw [← sendTask_vendorMessageId campId template x (env x),
          ← sendTask_vendorMessageId campId template y (env y)]
        exact hxy
      exact hne this
    exact hinj hx hy hids

/-! ## Receipt reconciler theorems -/

/-- C9: ingesting a receipt whose vendorMessageId matches no CommunicationLog
reports not-found and returns every log and every campaign's stats exactly as
they were. -/
theorem ingest_unknown_not_found (db : DB) (vmid status : String)
    (d : Option Int) (h : findLog db.logs vmid = none) :
    ingestReceipt db vmid status d = (IngestResult.notFound, db) := by
  unfold ingestReceipt
  rw [h]

/-- Witness for C9 at the empty database and an arbitrary id. -/
theorem ingest_unknown_not_found_witness :
    findLog (DB.mk [] []).logs "msg_1_x_0" = none ∧
    ingestReceipt (DB.mk [] []) "msg_1_x_0" "DELIVERED" none
      = (IngestResult.notFound, DB.mk [] []) :=
  ⟨rfl, ingest_unknown_not_found (DB.mk [] []) "msg_1_x_0" "DELIVERED" none rfl⟩

/-- C1 (code bug): in the launched one-customer state (log SENT,
stats.delivered = 0), the first DELIVERED receipt sets the log DELIVERED and
stats.delivered to 1 exactly as the claim states, but ingesting the identical
receipt a second time increments stats.delivered again, to 2: the handler
guards the increment only on the incoming status, never on the log's previous
status, so receipt ingestion is not idempotent per vendorMessageId. -/
theorem delivered_receipt_not_idempotent :
    (findLog launchedDb.logs vmidA).map CommLog.status = some "SENT" ∧
    (launchedDb.campaigns.map fun c => c.stats.delivered) = [0] ∧
    (ingestReceipt launchedDb vmidA "DELIVERED" (some 200)).1 = IngestResult.ok ∧
    ((findLog (ingestReceipt launchedDb vmidA "DELIVERED" (some 200)).2.logs
        vmidA).map CommLog.status = some "DELIVERED") ∧
    ((ingestReceipt launchedDb vmidA "DELIVERED" (some 200)).2.campaigns.map
        fun c => c.stats.delivered) = [1] ∧
    (ingestReceipt (ingestReceipt launchedDb vmidA "DELIVERED" (some 200)).2
        vmidA "DELIVERED" (some 200)).1 = IngestResult.ok ∧
    ((ingestReceipt (ingestReceipt launchedDb vmidA "DELIVERED" (some 200)).2
        vmidA "DELIVERED" (some 200)).2.campaigns.map
        fun c => c.stats.delivered) = [2] := by
  decide

/-- C2 (code bug): the receipt handler assigns the receipt's status to the
log unconditionally, so a receipt carrying the schema-valid value PENDING
moves a SENT log backwards to PENDING, and a FAILED log that receives a
DELIVERED receipt becomes DELIVERED: statuses do move backward and FAILED is
not absorbing. -/
theorem receipt_status_unguarded :
    (findLog mixedDb.logs vmidA9).map CommLog.status = some "SENT" ∧
    ((findLog (ingestReceipt mixedDb vmidA9 "PENDING" none).2.logs vmidA9).map
        CommLog.status = some "PENDING") ∧
    (findLog mixedDb.logs vmidB9).map CommLog.status = some "FAILED" ∧
    ((findLog (ingestReceipt mixedDb vmidB9 "DELIVERED" (some 300)).2.logs
        vmidB9).map CommLog.status = some "DELIVERED") := by
  decide

/-! ## Witnesses for the remaining hypothesis-bearing theorems -/

/-- Witness for C6 at custA (lastVisit present) with now = 0 and the rule
daysSinceLastVisit > 30. -/
theorem days_since_last_visit_inverted_witness :
    custA.lastVisit = some 1000 ∧
    (matchesQuery custA (buildSegmentQuery 0 [daysRule ">" 30]) = true ↔
      ((1000 : Int) : ℚ) < ((0 : Int) : ℚ) - 30 * dayMs) :=
  ⟨rfl, (days_since_last_visit_inverted 0 30 1000 custA rfl).1⟩

/-- Witness for C7 at the two-customer audience of mixedDb. -/
theorem launch_logs_distinct_witness :
    (([custA, custB]).map Customer.id).Nodup ∧
    underscoreFreeIds [custA, custB] ∧
    ((dispatch 9 "promo" "Hey {name}" [custA, custB] envMixed).logs.map
        CommLog.vendorMessageId).Nodup :=
  ⟨by decide, by decide,
    (launch_logs_distinct 9 "promo" "Hey {name}" custA [custB] envMixed
      (by decide) (by decide)).2.2.2.2.2⟩

/-- Witness for C10 at the rule customerTier > GOLD (non-equality operator on
the tier field). -/
theorem invalid_tier_rule_matches_all_witness :
    badTierRule.field = "customerTier" ∧
    badTierRule.operator ≠ "=" ∧
    ruleCondition 0 badTierRule = Condition.trivial ∧
    matchesQuery custA (buildSegmentQuery 0 [badTierRule]) = true :=
  ⟨rfl, by decide,
    (invalid_tier_rule_matches_all 0 badTierRule rfl (Or.inl (by decide))).1,
    (invalid_tier_rule_matches_all 0 badTierRule rfl (Or.inl (by decide))).2 custA⟩

end Crm
